import Mathlib

/-!
Shallow embedding of the entity serialization scripts
(`principes_1_2.py`, `principles_345.py`, `five_principles.py`):
a three-variant entity model (Vehicle, Pedestrian, LightStateAction),
CSV row codec, XML element codec, and the comparator, together with
theorems settling the specification claims about them.

Python is dynamically typed: identifiers are created as integers by the
example callers but come back from both decoders as strings, so field
values are modelled by an explicit dynamic value type `PyVal`
(None / int / str), with equality matching Python `==` on these values.
-/

deriving instance DecidableEq for Except

namespace OpenScenario

/-- Dynamic Python value as stored in entity fields, XML text and
XML attributes: `None`, an `int`, or a `str`. -/
inductive PyVal where
  | none : PyVal
  | int (n : Int) : PyVal
  | str (s : String) : PyVal
deriving DecidableEq, Repr

/-- Python `str()` applied to a `PyVal` (`str(None) = "None"`,
integers print in decimal, strings are returned unchanged). -/
def pyStr : PyVal → String
  | .none => "None"
  | .int n => toString n
  | .str s => s

/-- All-ASCII-digits check: non-empty and every character one of
`'0'`-`'9'`. On such strings Python's `str.isdigit` is also true and
`int()` agrees with `pyInt` below; the full Unicode-aware check the
source performs is `py_isdigit`. -/
def isdigit (s : String) : Bool :=
  !s.data.isEmpty && s.data.all Char.isDigit

/-- Decimal value of an all-ASCII-digits string; agrees with Python
`int()` there (the general digit-string parse with its error path is
`py_int?`). -/
def pyInt (s : String) : Nat :=
  s.data.foldl (fun a c => a * 10 + (c.toNat - '0'.toNat)) 0

/-- Start codepoints of the 10-character runs of Unicode decimal-digit
characters (Numeric_Type=Decimal): a character is a decimal digit of
value `v` exactly when its codepoint is `s + v` for one of these `s`.
Extracted from the Unicode data of the Python runtime being modelled
(3.11). -/
def decimal_range_starts : List Nat :=
  [48, 1632, 1776, 1984, 2406, 2534, 2662, 2790, 2918, 3046, 3174, 3302,
   3430, 3558, 3664, 3792, 3872, 4160, 4240, 6112, 6160, 6470, 6608, 6784,
   6800, 6992, 7088, 7232, 7248, 42528, 43216, 43264, 43472, 43504, 43600,
   44016, 65296, 66720, 68912, 69734, 69872, 69942, 70096, 70384, 70736,
   70864, 71248, 71360, 71472, 71904, 72016, 72784, 73040, 73120, 73552,
   92768, 92864, 93008, 120782, 120792, 120802, 120812, 120822, 123200,
   123632, 125264]

/-- Codepoint ranges of the characters with Numeric_Type=Digit but not
Decimal (superscripts such as `'²'`, circled digits, Ethiopic digits,
...): `str.isdigit` accepts them but `int()` raises `ValueError` on
them. Extracted from the same Unicode data. -/
def digit_only_ranges : List (Nat × Nat) :=
  [(178, 179), (185, 185), (4969, 4977), (6618, 6618), (8304, 8304),
   (8308, 8313), (8320, 8329), (9312, 9320), (9332, 9340), (9352, 9360),
   (9450, 9450), (9461, 9469), (9471, 9471), (10102, 10110),
   (10112, 10120), (10122, 10130), (68160, 68163), (69216, 69224),
   (69714, 69722), (127232, 127242)]

/-- The Unicode decimal-digit value of a character, when it has one. -/
def decimalVal? (c : Char) : Option Nat :=
  decimal_range_starts.findSome? (fun s =>
    if s ≤ c.toNat ∧ c.toNat ≤ s + 9 then some (c.toNat - s) else Option.none)

/-- Python `str.isdigit` on a single character: Numeric_Type Decimal
or Digit. -/
def py_isdigit_char (c : Char) : Bool :=
  (decimalVal? c).isSome ||
    digit_only_ranges.any (fun r => r.1 ≤ c.toNat && c.toNat ≤ r.2)

/-- Python `str.isdigit`: non-empty and every character a digit. -/
def py_isdigit (s : String) : Bool :=
  !s.data.isEmpty && s.data.all py_isdigit_char

/-- One step of `int()`'s base-10 accumulation: fails on any character
without a decimal value. -/
def int_step (acc : Option Nat) (c : Char) : Option Nat :=
  match acc, decimalVal? c with
  | some a, some d => some (a * 10 + d)
  | _, _ => Option.none

/-- Python `int()` on a string of digit characters: the base-10 value
when the string is non-empty and every character is a *decimal* digit;
`Option.none` models the `ValueError` that `int()` raises otherwise
(e.g. on `'²'`, which passes `isdigit` but has no decimal value). -/
def py_int? (s : String) : Option Nat :=
  if s.data.isEmpty then Option.none
  else s.data.foldl int_step (some 0)

/-- The entity model shared by the three scripts: base fields
`entity_id` and `name` plus one variant-specific field
(`model` / `age` / `user_defined_light_type`). -/
inductive Entity where
  | vehicle (entity_id name model : PyVal) : Entity
  | pedestrian (entity_id name age : PyVal) : Entity
  | light (entity_id name user_defined_light_type : PyVal) : Entity
deriving DecidableEq, Repr

/-- `entity_id` field (set in `Entity.__init__`). -/
def Entity.entity_id : Entity → PyVal
  | .vehicle i _ _ => i
  | .pedestrian i _ _ => i
  | .light i _ _ => i

/-- `name` field (set in `Entity.__init__`). -/
def Entity.name : Entity → PyVal
  | .vehicle _ n _ => n
  | .pedestrian _ n _ => n
  | .light _ n _ => n

/-- The single variant-specific field: `model`, `age`, or
`user_defined_light_type`. -/
def Entity.variant_field : Entity → PyVal
  | .vehicle _ _ m => m
  | .pedestrian _ _ a => a
  | .light _ _ t => t

/-- `to_csv_row`: the subclass methods append their variant field to
`super().to_csv_row() = [entity_id, name]`
(`principes_1_2.py` lines 12-29, `five_principles.py` line 37). -/
def Entity.to_csv_row : Entity → List PyVal
  | .vehicle i n m => [i, n] ++ [m]
  | .pedestrian i n a => [i, n] ++ [a]
  | .light i n t => [i, n] ++ [t]

/-- `CSVHandler.save_entities_to_csv` (`principes_1_2.py` lines 37-42),
modelled at the level of the list of rows written to the file: the fixed
header row, then one row per entity; `csv.writer` stringifies each
field. -/
def save_entities_to_csv (entities : List Entity) : List (List String) :=
  ["Entity ID", "Name", "Model/Age"] :: entities.map (fun e => e.to_csv_row.map pyStr)

/-- The per-row decoding step of `CSVHandler.read_entities_from_csv`
(`principes_1_2.py` lines 49-54): unpack exactly three columns
(a `ValueError` escapes otherwise), then classify by `str.isdigit` on
the third column; in the digit branch `int(attribute)` either yields
the value or raises `ValueError` when some digit character has no
decimal value. -/
def read_row (row : List String) : Except String Entity :=
  match row with
  | [entity_id, name, attrib] =>
    if py_isdigit attrib then
      match py_int? attrib with
      | some v => .ok (.pedestrian (.str entity_id) (.str name) (.int v))
      | Option.none => .error "ValueError: invalid literal for int"
    else
      .ok (.vehicle (.str entity_id) (.str name) (.str attrib))
  | _ => .error "ValueError: wrong number of columns"

mutual
/-- In-memory `xml.etree.ElementTree` element: tag, attributes, text
(`None` when never assigned) and child elements, in document order.
(The child list is a mutually defined copy of `List Xml` so that the
descendant search below is structurally recursive.) -/
inductive Xml where
  | elem (tag : String) (attrs : List (String × PyVal)) (text : PyVal)
      (children : XmlList) : Xml

/-- Children of an element, in document order. -/
inductive XmlList where
  | nil : XmlList
  | cons (head : Xml) (tail : XmlList) : XmlList
end

/-- Build an `XmlList` from a `List Xml`. -/
def XmlList.ofList : List Xml → XmlList
  | [] => .nil
  | x :: xs => .cons x (XmlList.ofList xs)

/-- View an `XmlList` as a `List Xml`. -/
def XmlList.toList : XmlList → List Xml
  | .nil => []
  | .cons x xs => x :: xs.toList

/-- Element constructor taking the children as a plain list. -/
def el (tag : String) (attrs : List (String × PyVal)) (text : PyVal)
    (children : List Xml) : Xml :=
  .elem tag attrs text (.ofList children)

/-- Tag of an element. -/
def Xml.tag : Xml → String
  | .elem t _ _ _ => t

/-- Attribute list of an element. -/
def Xml.attrs : Xml → List (String × PyVal)
  | .elem _ a _ _ => a

/-- `.text` of an element. -/
def Xml.text : Xml → PyVal
  | .elem _ _ t _ => t

/-- Child elements, in document order, as a plain list. -/
def Xml.children : Xml → List Xml
  | .elem _ _ _ c => c.toList

/-- `Element.get(key)`: attribute lookup, `None` (here `Option.none`)
when the attribute is absent. -/
def Xml.get (x : Xml) (key : String) : Option PyVal :=
  x.attrs.lookup key

/-- `Element.find(tag)`: the first direct child with the given tag. -/
def Xml.find (x : Xml) (t : String) : Option Xml :=
  x.children.find? (fun c => c.tag == t)

mutual
/-- Descendant-or-self search: all elements of the subtree rooted at
`x` with the given tag, in document order. -/
def Xml.findallAux (t : String) : Xml → List Xml
  | .elem tg a tx ch =>
    (if tg == t then [Xml.elem tg a tx ch] else []) ++ XmlList.findallAux t ch

/-- `Xml.findallAux` over a child list. -/
def XmlList.findallAux (t : String) : XmlList → List Xml
  | .nil => []
  | .cons x xs => Xml.findallAux t x ++ XmlList.findallAux t xs
end

/-- `x.findall('.//t')`: all proper descendants of `x` with the given
tag, in document order. -/
def Xml.findall (x : Xml) (t : String) : List Xml :=
  match x with
  | .elem _ _ _ ch => XmlList.findallAux t ch

/-- `to_xml_element` (`principles_345.py` lines 26-58 for Vehicle and
Pedestrian, `five_principles.py` lines 26-46 for LightStateAction):
an `Entity` element with the `id` attribute set to `str(entity_id)`,
a `Name` child whose text is the raw `name` value, and the
variant-specific child structure (`Model` text raw, `Age` text
`str(age)`, or `LightStateAction/LightType/UserDefinedLight` with the
raw `user_defined_light_type` as attribute value). -/
def Entity.to_xml_element : Entity → Xml
  | .vehicle i n m =>
    el "Entity" [("id", .str (pyStr i))] .none
      [el "Name" [] n [], el "Model" [] m []]
  | .pedestrian i n a =>
    el "Entity" [("id", .str (pyStr i))] .none
      [el "Name" [] n [], el "Age" [] (.str (pyStr a)) []]
  | .light i n t =>
    el "Entity" [("id", .str (pyStr i))] .none
      [el "Name" [] n [],
       el "LightStateAction" [] .none
         [el "LightType" [] .none
           [el "UserDefinedLight" [("userDefinedLightType", t)] .none []]]]

/-- The per-entity element built by `XMLHandler.create_sample_xml`
(`principes_1_2.py` lines 78-87): the `isinstance(entity, Vehicle)` /
`elif isinstance(entity, Pedestrian)` chain adds a `Model` or `Age`
child; any other entity gets only the `Name` child. -/
def sample_entity_element : Entity → Xml
  | .vehicle i n m => Entity.to_xml_element (.vehicle i n m)
  | .pedestrian i n a => Entity.to_xml_element (.pedestrian i n a)
  | .light i n _ =>
    el "Entity" [("id", .str (pyStr i))] .none [el "Name" [] n []]

/-- `XMLHandler.create_sample_xml` (`principes_1_2.py` lines 76-95),
modelled as the element tree written to the file: an `Entities` root
with one `Entity` child per input entity, in order. -/
def create_sample_xml (entities : List Entity) : Xml :=
  el "Entities" [] .none (entities.map sample_entity_element)

/-- The per-element decoding step of
`XMLHandler.parse_entities_from_xml` (`principes_1_2.py` lines 65-73):
read the `id` attribute (`None` when absent), the `Name` child's text
(an `AttributeError` escapes when there is no `Name` child), then
build a Vehicle when a `Model` child is present, otherwise read the
`Age` child's text (an `AttributeError` escapes when absent too) and
build a Pedestrian. -/
def parse_entity (x : Xml) : Except String Entity :=
  let entity_id : PyVal := match x.get "id" with
    | Option.none => .none
    | some v => v
  match x.find "Name" with
  | Option.none => .error "AttributeError: no Name child"
  | some nameEl =>
    match x.find "Model" with
    | some m => .ok (.vehicle entity_id nameEl.text m.text)
    | Option.none =>
      match x.find "Age" with
      | Option.none => .error "AttributeError: no Age child"
      | some a => .ok (.pedestrian entity_id nameEl.text a.text)

/-- `XMLHandler.parse_entities_from_xml` (`principes_1_2.py` lines
61-74): decode every `.//Entity` descendant of the root, in document
order; any element error aborts the whole parse. -/
def parse_entities_from_xml (root : Xml) : Except String (List Entity) :=
  (root.findall "Entity").mapM parse_entity

/-- `XMLHandler.save` (`five_principles.py` lines 68-72): an
`Entities` root containing the entity's `to_xml_element`. -/
def xmlhandler_save (e : Entity) : Xml :=
  el "Entities" [] .none [e.to_xml_element]

/-- The loop body of `parse_xml` (`five_principles.py` lines 87-91):
build a LightStateAction with the hardcoded id `1` and name
`"LightStateAction"`, and the `userDefinedLightType` attribute of the
first `.//UserDefinedLight` descendant of the action (an
`AttributeError` escapes when there is no such descendant; a missing
attribute yields `None`). -/
def parse_action (action : Xml) : Except String Entity :=
  match (action.findall "UserDefinedLight").head? with
  | Option.none => .error "AttributeError: no UserDefinedLight"
  | some u =>
    .ok (.light (.int 1) (.str "LightStateAction")
      (match u.get "userDefinedLightType" with
       | Option.none => .none
       | some v => v))

/-- `parse_xml` (`five_principles.py` lines 83-92): apply
`parse_action` to every `.//PrivateAction` descendant, in document
order. -/
def parse_xml (root : Xml) : Except String (List Entity) :=
  (root.findall "PrivateAction").mapM parse_action

/-- `EntityComparator.compare_entities` (`principes_1_2.py` lines
97-103), modelled as the sequence of reported matches: the nested
loops report the pair `(a, b)` whenever `a.entity_id == b.entity_id`
and `a.name == b.name`. -/
def compare_entities : List Entity → List Entity → List (Entity × Entity)
  | [], _ => []
  | a :: as_, bs =>
    (bs.filter (fun b => a.entity_id == b.entity_id && a.name == b.name)).map
      (fun b => (a, b)) ++ compare_entities as_ bs

/-! ### Decimal printing and re-parsing

`pyStr (.int n)` prints via `Nat.repr`, and the CSV reader re-parses
digit strings with `isdigit` / `pyInt`; the following lemmas show that
printing a natural number yields a non-empty all-digit string whose
value reads back to the same number. -/

theorem toDigitsCore_append (fuel : Nat) : ∀ (n : Nat) (ds : List Char),
    Nat.toDigitsCore 10 fuel n ds = Nat.toDigitsCore 10 fuel n [] ++ ds := by
  induction fuel with
  | zero => intro n ds; simp [Nat.toDigitsCore]
  | succ f ih =>
    intro n ds
    simp only [Nat.toDigitsCore]
    by_cases h : n / 10 = 0
    · simp [h]
    · simp only [if_neg h]
      rw [ih (n / 10) (Nat.digitChar (n % 10) :: ds),
        ih (n / 10) [Nat.digitChar (n % 10)]]
      simp

theorem toDigitsCore_fuel (n : Nat) : ∀ (f g : Nat), n < f → n < g →
    Nat.toDigitsCore 10 f n [] = Nat.toDigitsCore 10 g n [] := by
  induction n using Nat.strong_induction_on with
  | _ n ih =>
    intro f g hf hg
    cases f with
    | zero => omega
    | succ f' =>
      cases g with
      | zero => omega
      | succ g' =>
        simp only [Nat.toDigitsCore]
        by_cases h : n / 10 = 0
        · simp [h]
        · have hn : 0 < n := by
            rcases Nat.eq_zero_or_pos n with h0 | h0
            · subst h0; simp at h
            · exact h0
          have hlt : n / 10 < n := Nat.div_lt_self hn (by omega)
          simp only [if_neg h]
          rw [toDigitsCore_append f', toDigitsCore_append g',
            ih (n / 10) hlt f' g' (by omega) (by omega)]

theorem isDigit_toNat_bounds {c : Char} (h : c.isDigit = true) :
    48 ≤ c.toNat ∧ c.toNat ≤ 57 := by
  simpa [Char.isDigit] using h

theorem decimalVal?_ascii {c : Char} (h : c.isDigit = true) :
    decimalVal? c = some (c.toNat - 48) := by
  obtain ⟨h1, h2⟩ := isDigit_toNat_bounds h
  unfold decimalVal? decimal_range_starts
  rw [List.findSome?_cons]
  simp [h1, h2]

theorem py_isdigit_char_ascii {c : Char} (h : c.isDigit = true) :
    py_isdigit_char c = true := by
  simp [py_isdigit_char, decimalVal?_ascii h]

theorem py_isdigit_of_isdigit {s : String} (h : isdigit s = true) :
    py_isdigit s = true := by
  simp only [isdigit, Bool.and_eq_true, Bool.not_eq_true', List.all_eq_true] at h
  obtain ⟨h1, h2⟩ := h
  simp only [py_isdigit, Bool.and_eq_true, Bool.not_eq_true', List.all_eq_true, h1,
    true_and]
  exact fun c hc => py_isdigit_char_ascii (h2 c hc)

theorem foldl_int_step_ascii (l : List Char) :
    (∀ c ∈ l, c.isDigit = true) → ∀ a : Nat,
    l.foldl int_step (some a)
      = some (l.foldl (fun a c => a * 10 + (c.toNat - '0'.toNat)) a) := by
  induction l with
  | nil => intro _ a; rfl
  | cons c l ih =>
    intro h a
    have hc := h c (List.mem_cons_self c l)
    rw [List.foldl_cons, List.foldl_cons]
    have hstep : int_step (some a) c = some (a * 10 + (c.toNat - '0'.toNat)) := by
      simp [int_step, decimalVal?_ascii hc]
    rw [hstep]
    exact ih (fun x hx => h x (List.mem_cons_of_mem c hx)) _

theorem py_int?_of_isdigit {s : String} (h : isdigit s = true) :
    py_int? s = some (pyInt s) := by
  simp only [isdigit, Bool.and_eq_true, Bool.not_eq_true', List.all_eq_true] at h
  obtain ⟨h1, h2⟩ := h
  simp only [py_int?, h1, if_false, Bool.false_eq_true, pyInt]
  exact foldl_int_step_ascii s.data h2 0

/-- Whether a dynamic value is a Python `str`. -/
def PyVal.is_str : PyVal → Bool
  | .str _ => true
  | _ => false

/-- Whether an entity is of the LightStateAction variant. -/
def Entity.is_light : Entity → Bool
  | .light _ _ _ => true
  | _ => false

/-- Whether all three fields of an entity are Python strings (as they
are for every entity produced by one of the decoders). -/
def Entity.str_fields : Entity → Bool
  | .vehicle i n m => i.is_str && n.is_str && m.is_str
  | .pedestrian i n a => i.is_str && n.is_str && a.is_str
  | .light i n t => i.is_str && n.is_str && t.is_str

/-- The `id`-attribute value read by `parse_entities_from_xml`:
`entity.get('id')`, i.e. the stored value, or `None` when absent. -/
def xml_id_attr (x : Xml) : PyVal :=
  match x.get "id" with
  | Option.none => .none
  | some v => v

/-! ### Claim theorems -/

/-- C8: saving the empty collection yields, for CSV, just the fixed
header row, and for XML, an `Entities` root element with no attributes,
no text and no children. -/
theorem save_empty_collection :
    save_entities_to_csv [] = [["Entity ID", "Name", "Model/Age"]] ∧
    create_sample_xml [] = el "Entities" [] .none [] :=
  ⟨rfl, rfl⟩

/-- C3: a Vehicle whose model consists only of digits is decoded from
its own CSV row as a Pedestrian whose age is the decimal value of the
model string. -/
theorem csv_digits_model_decodes_pedestrian
    (entity_id name : PyVal) (m : String) (h : isdigit m = true) :
    read_row ((Entity.vehicle entity_id name (.str m)).to_csv_row.map pyStr)
      = .ok (.pedestrian (.str (pyStr entity_id)) (.str (pyStr name))
          (.int (pyInt m))) := by
  simp [Entity.to_csv_row, read_row, pyStr, py_isdigit_of_isdigit h,
    py_int?_of_isdigit h]

/-- Witness for C3 at the spec's own example
`Vehicle(id=1, name="X", model="12345")`: it decodes as a Pedestrian
with age `12345`. -/
theorem csv_digits_model_decodes_pedestrian_witness :
    isdigit "12345" = true ∧
    read_row ((Entity.vehicle (.int 1) (.str "X") (.str "12345")).to_csv_row.map pyStr)
      = .ok (.pedestrian (.str "1") (.str "X") (.int 12345)) :=
  ⟨by decide, csv_digits_model_decodes_pedestrian (.int 1) (.str "X") "12345" (by decide)⟩

/-- C6: writing a collection to CSV emits the fixed header row
followed by exactly one row per entity in input order, each row being
the stringified base fields `[entity_id, name]` followed by exactly
one trailing variant-specific field. -/
theorem csv_save_shape (entities : List Entity) :
    save_entities_to_csv entities
      = ["Entity ID", "Name", "Model/Age"] ::
        entities.map (fun e => [pyStr e.entity_id, pyStr e.name]
          ++ [pyStr e.variant_field]) := by
  simp only [save_entities_to_csv, List.cons.injEq, true_and]
  induction entities with
  | nil => rfl
  | cons e es ih =>
    simp only [List.map_cons, ih, List.cons.injEq, and_true]
    cases e <;> rfl

/-- Decoding the element encoded by `sample_entity_element` recovers a
string-typed Vehicle or Pedestrian exactly. -/
theorem parse_sample_str (e : Entity) (h1 : e.str_fields = true)
    (h2 : e.is_light = false) :
    parse_entity (sample_entity_element e) = .ok e := by
  cases e with
  | vehicle i n m =>
    cases i <;> cases n <;> cases m <;>
      simp_all [Entity.str_fields, PyVal.is_str]
    rfl
  | pedestrian i n a =>
    cases i <;> cases n <;> cases a <;>
      simp_all [Entity.str_fields, PyVal.is_str]
    rfl
  | light i n t => simp [Entity.is_light] at h2

/-- A sample entity element contains no nested `Entity` descendant. -/
theorem findallAux_sample (e : Entity) :
    Xml.findallAux "Entity" (sample_entity_element e) = [sample_entity_element e] := by
  cases e <;> rfl

/-- The `.//Entity` elements of a sample document are exactly its
per-entity children, in order. -/
theorem findall_entity_sample (es : List Entity) :
    (create_sample_xml es).findall "Entity" = es.map sample_entity_element := by
  show XmlList.findallAux "Entity" (XmlList.ofList (es.map sample_entity_element))
    = es.map sample_entity_element
  induction es with
  | nil => rfl
  | cons e es ih =>
    simp only [List.map_cons, XmlList.ofList, XmlList.findallAux, ih,
      findallAux_sample, List.cons_append, List.nil_append]

/-- Decoding all sample elements of string-typed non-light entities
succeeds and recovers the list. -/
theorem mapM_parse_sample (es : List Entity)
    (h : ∀ e ∈ es, e.str_fields = true ∧ e.is_light = false) :
    (es.map sample_entity_element).mapM parse_entity = .ok es := by
  induction es with
  | nil => rfl
  | cons e es ih =>
    obtain ⟨h1, h2⟩ := h e (List.mem_cons_self e es)
    rw [List.map_cons, List.mapM_cons, parse_sample_str e h1 h2,
      ih (fun x hx => h x (List.mem_cons_of_mem e hx))]
    rfl

/-- C1 (corrected): the XML round-trip is not unconditional. The
example Pedestrian with integer age `30` comes back with the string
age `"30"`, hence not equal to itself; and a LightStateAction cannot
be recovered at all: `principes_1_2`'s element decoder fails on its
encoded element, and `five_principles.parse_xml` applied to the
document saved for it yields the empty list. -/
theorem xml_roundtrip_counterexample :
    parse_entity (Entity.to_xml_element (.pedestrian (.str "2") (.str "John Doe") (.int 30)))
      = .ok (.pedestrian (.str "2") (.str "John Doe") (.str "30")) ∧
    Entity.pedestrian (.str "2") (.str "John Doe") (.str "30")
      ≠ Entity.pedestrian (.str "2") (.str "John Doe") (.int 30) ∧
    (parse_entity (Entity.to_xml_element
      (.light (.str "1") (.str "Light State Action") (.str "myLights")))).isOk = false ∧
    parse_xml (xmlhandler_save
      (.light (.str "1") (.str "Light State Action") (.str "myLights"))) = .ok [] := by
  refine ⟨by decide, by decide, by decide, by decide⟩

/-- C1 (amended): the XML round-trip
`decodeElement(encodeElement(e)) = e` holds for the Vehicle and
Pedestrian variants whose fields are all strings (ids and ages of
other types come back as their string form, and LightStateAction has
no decoder that recovers it); a whole collection of such entities
round-trips through `create_sample_xml` / `parse_entities_from_xml`. -/
theorem xml_roundtrip_string_fields :
    (∀ i nm v : String,
      parse_entity (Entity.to_xml_element (.vehicle (.str i) (.str nm) (.str v)))
        = .ok (.vehicle (.str i) (.str nm) (.str v)) ∧
      parse_entity (Entity.to_xml_element (.pedestrian (.str i) (.str nm) (.str v)))
        = .ok (.pedestrian (.str i) (.str nm) (.str v))) ∧
    ∀ es : List Entity, (∀ e ∈ es, e.str_fields = true ∧ e.is_light = false) →
      parse_entities_from_xml (create_sample_xml es) = .ok es := by
  constructor
  · intro i nm v
    exact ⟨rfl, rfl⟩
  · intro es h
    show ((create_sample_xml es).findall "Entity").mapM parse_entity = .ok es
    rw [findall_entity_sample, mapM_parse_sample es h]

/-- Witness for C1's amended theorem on a concrete two-entity
collection. -/
theorem xml_roundtrip_string_fields_witness :
    parse_entities_from_xml (create_sample_xml
      [.vehicle (.str "1") (.str "Car A") (.str "Model X"),
       .pedestrian (.str "2") (.str "John Doe") (.str "30")])
      = .ok [.vehicle (.str "1") (.str "Car A") (.str "Model X"),
             .pedestrian (.str "2") (.str "John Doe") (.str "30")] :=
  xml_roundtrip_string_fields.2
    [.vehicle (.str "1") (.str "Car A") (.str "Model X"),
     .pedestrian (.str "2") (.str "John Doe") (.str "30")]
    (by decide)

/-- C4 (corrected): XML dispatch is not the exact three-way dispatch
the claim states. An element carrying a `LightStateAction` child (the
encoding of a LightStateAction) makes the element decoder fail — it
never returns a LightStateAction — and an element with a `Model` child
but no `Name` child fails rather than returning a Vehicle. -/
theorem xml_dispatch_counterexample :
    (parse_entity (Entity.to_xml_element
      (.light (.str "5") (.str "L") (.str "myLights")))).isOk = false ∧
    (parse_entity (el "Entity" [("id", .str "7")] .none
      [el "Model" [] (.str "m") []])).isOk = false := by
  refine ⟨by decide, by decide⟩

/-- C4 (amended): for every element with a `Name` child, the decoder
dispatches on `Model` first and `Age` second: a `Model` child yields a
Vehicle, otherwise an `Age` child yields a Pedestrian, otherwise it
fails; and the element decoder never produces a LightStateAction. -/
theorem xml_dispatch_model_age :
    (∀ (x : Xml) (nameEl : Xml), x.find "Name" = some nameEl →
      (∀ m, x.find "Model" = some m →
        parse_entity x = .ok (.vehicle (xml_id_attr x) nameEl.text m.text)) ∧
      (x.find "Model" = Option.none → ∀ a, x.find "Age" = some a →
        parse_entity x = .ok (.pedestrian (xml_id_attr x) nameEl.text a.text)) ∧
      (x.find "Model" = Option.none → x.find "Age" = Option.none →
        parse_entity x = .error "AttributeError: no Age child")) ∧
    ∀ (x : Xml) (e : Entity), parse_entity x = .ok e → e.is_light = false := by
  constructor
  · intro x nameEl hName
    refine ⟨?_, ?_, ?_⟩
    · intro m hModel
      simp [parse_entity, hName, hModel, xml_id_attr]
    · intro hModel a hAge
      simp [parse_entity, hName, hModel, hAge, xml_id_attr]
    · intro hModel hAge
      simp [parse_entity, hName, hModel, hAge]
  · intro x e h
    unfold parse_entity at h
    rcases hName : x.find "Name" with _ | nameEl <;> rw [hName] at h
    · exact absurd h (by simp)
    · rcases hModel : x.find "Model" with _ | m <;> rw [hModel] at h
      · rcases hAge : x.find "Age" with _ | a <;> rw [hAge] at h
        · exact absurd h (by simp)
        · cases h; rfl
      · cases h; rfl

/-- Witness for C4's amended theorem on a concrete element with `Name`
and `Model` children. -/
theorem xml_dispatch_model_age_witness :
    parse_entity (el "Entity" [("id", .str "9")] .none
      [el "Name" [] (.str "nm") [], el "Model" [] (.str "mo") []])
      = .ok (.vehicle (.str "9") (.str "nm") (.str "mo")) ∧
    Entity.is_light (.vehicle (.str "9") (.str "nm") (.str "mo")) = false :=
  ⟨(xml_dispatch_model_age.1
      (el "Entity" [("id", .str "9")] .none
        [el "Name" [] (.str "nm") [], el "Model" [] (.str "mo") []])
      (el "Name" [] (.str "nm") []) rfl).1 (el "Model" [] (.str "mo") []) rfl,
   xml_dispatch_model_age.2
      (el "Entity" [("id", .str "9")] .none
        [el "Name" [] (.str "nm") [], el "Model" [] (.str "mo") []])
      (.vehicle (.str "9") (.str "nm") (.str "mo")) rfl⟩

theorem ok_bind {α β : Type} (a : α) (k : α → Except String β) :
    (Except.ok a >>= k) = k a := rfl

theorem error_bind {α β : Type} (m : String) (k : α → Except String β) :
    ((Except.error m : Except String α) >>= k) = .error m := rfl

/-- C7: the comparator reports the pair `(a, b)` exactly when `a` and
`b` come from the two input collections and agree on both id and name;
on singletons it yields exactly one match when id and name agree and
none otherwise (same id with different name included). -/
theorem comparator_matches :
    (∀ (A B : List Entity) (a b : Entity),
      (a, b) ∈ compare_entities A B ↔
        a ∈ A ∧ b ∈ B ∧ a.entity_id = b.entity_id ∧ a.name = b.name) ∧
    (∀ a b : Entity, compare_entities [a] [b]
      = if a.entity_id = b.entity_id ∧ a.name = b.name then [(a, b)] else []) := by
  constructor
  · intro A B a b
    induction A with
    | nil => simp [compare_entities]
    | cons a' A ih =>
      simp only [compare_entities, List.mem_append, List.mem_map,
        List.mem_filter, ih, List.mem_cons, Bool.and_eq_true, beq_iff_eq,
        Prod.mk.injEq]
      constructor
      · rintro (⟨b', ⟨hb, h1, h2⟩, rfl, rfl⟩ | ⟨ha, hb, h1, h2⟩)
        · exact ⟨Or.inl rfl, hb, h1, h2⟩
        · exact ⟨Or.inr ha, hb, h1, h2⟩
      · rintro ⟨rfl | ha, hb, h1, h2⟩
        · exact Or.inl ⟨b, ⟨hb, h1, h2⟩, rfl, rfl⟩
        · exact Or.inr ⟨ha, hb, h1, h2⟩
  · intro a b
    by_cases h1 : a.entity_id = b.entity_id <;> by_cases h2 : a.name = b.name <;>
      simp [compare_entities, List.filter_cons, h1, h2]

/-- Every entity built by `parse_action` carries the hardcoded id and
name. -/
theorem mapM_parse_action_ids (acts : List Xml) :
    ∀ es : List Entity, acts.mapM parse_action = .ok es →
    ∀ ent ∈ es, ent.entity_id = .int 1 ∧ ent.name = .str "LightStateAction" := by
  induction acts with
  | nil =>
    intro es h ent hm
    simp only [List.mapM_nil] at h
    cases h
    cases hm
  | cons ac acs ih =>
    intro es h ent hm
    rw [List.mapM_cons] at h
    rcases hac : parse_action ac with m | b <;> rw [hac] at h
    · rw [error_bind] at h
      cases h
    · rw [ok_bind] at h
      rcases hacs : acs.mapM parse_action with m' | bs <;> rw [hacs] at h
      · rw [error_bind] at h
        cases h
      · rw [ok_bind] at h
        cases h
        rcases List.mem_cons.mp hm with rfl | hm2
        · unfold parse_action at hac
          rcases hu : (ac.findall "UserDefinedLight").head? with _ | u <;>
            rw [hu] at hac <;> simp only [Except.ok.injEq] at hac
          · cases hac
          · subst hac
            exact ⟨rfl, rfl⟩
        · exact ih bs hacs ent hm2

/-- C10: reading back any file written by `five_principles`'s
`XMLHandler.save` via `parse_xml` yields the empty list (no
`PrivateAction` element is ever emitted), and every entity `parse_xml`
does return from any input has the hardcoded id `1` and name
`"LightStateAction"`. -/
theorem parse_xml_private_action :
    (∀ e : Entity, parse_xml (xmlhandler_save e) = .ok []) ∧
    ∀ (x : Xml) (es : List Entity), parse_xml x = .ok es →
      ∀ ent ∈ es, ent.entity_id = .int 1 ∧ ent.name = .str "LightStateAction" := by
  constructor
  · intro e
    cases e <;> rfl
  · intro x es h ent hm
    exact mapM_parse_action_ids (x.findall "PrivateAction") es h ent hm

/-- Witness for C10 on a document that does contain a
`PrivateAction`. -/
theorem parse_xml_private_action_witness :
    parse_xml (xmlhandler_save (.light (.int 1) (.str "Light") (.str "t"))) = .ok [] ∧
    (Entity.light (.int 1) (.str "LightStateAction") (.str "x")).entity_id = .int 1 ∧
    (Entity.light (.int 1) (.str "LightStateAction") (.str "x")).name
      = .str "LightStateAction" :=
  ⟨parse_xml_private_action.1 (.light (.int 1) (.str "Light") (.str "t")),
   parse_xml_private_action.2
     (el "Root" [] .none [el "PrivateAction" [] .none
       [el "UserDefinedLight" [("userDefinedLightType", .str "x")] .none []]])
     [.light (.int 1) (.str "LightStateAction") (.str "x")]
     (by decide)
     (.light (.int 1) (.str "LightStateAction") (.str "x")) (by decide)⟩

end OpenScenario
